import Mathlib

/-!
Shallow embedding of the Doc-Intel trade-compliance backend
(backend/main.py, backend/fraud_rules.py, backend/pattern_detector.py).

Python dynamic values that flow through the comparison tables are either
strings, `None`, or the integer `qty_sum`; they are modelled by
`Option Val`.  Python float arithmetic in the scoring code is modelled by
exact rationals: every quantity compared or truncated in the claims is a
small dyadic/decimal value for which IEEE double arithmetic agrees with
the exact computation (the score weights 0.4/0.2 times the integer
category scores 45/75/80/95/100 and integer bases all round to the ideal
products, and non-integer weighted sums stay at distance 0.1 from the
truncation boundaries, far above the float error).
-/

namespace DocIntel

/-- Python `str.strip` whitespace (ASCII): the six characters stripped by
`strip()` with no argument. -/
def isPySpace (c : Char) : Bool :=
  c == ' ' || c == '\t' || c == '\n' || c == '\r' || c == '\x0b' || c == '\x0c'

/-- Python `s.strip()`. -/
def pyStrip (s : String) : String :=
  String.mk (((s.toList.dropWhile isPySpace).reverse.dropWhile isPySpace).reverse)

/-- Python `s[:n]`. -/
def pyTake (n : Nat) (s : String) : String := String.mk (s.toList.take n)

/-- A Python value appearing in a document-info record: a string or an int.
`Option Val` adds `None`. -/
inductive Val where
  | s : String → Val
  | i : Int → Val
deriving DecidableEq, Repr

abbrev Value := Option Val

/-- Python `str(v)` for the values above (`str(None) = "None"`). -/
def pyStr : Value → String
  | none => "None"
  | some (Val.s x) => x
  | some (Val.i n) => toString n

/-- Python truthiness test `not v` (used by the pairwise comparison):
`None`, `""` and `0` are falsy. -/
def falsy : Value → Bool
  | none => true
  | some (Val.s x) => x == ""
  | some (Val.i n) => n == 0

/-- Python membership test `v in (None, "", [])` used by the master
comparison row.  The integer `qty_sum` never equals any of the three. -/
def emptyTriple : Value → Bool
  | none => true
  | some (Val.s x) => x == ""
  | some (Val.i _) => false

/-- `str(v).strip()`. -/
def trimOf (v : Value) : String := pyStrip (pyStr v)

/-- `set([str(v).strip() for v in values if v not in (None, "", [])])`,
modelled as a deduplicated list (only its size and membership are used). -/
def masterNormalized (values : List Value) : List String :=
  ((values.filter (fun v => ! emptyTriple v)).map (fun v => pyStrip (pyStr v))).dedup

/-- Master comparison-row status (main.py, compare_docs master loop):
`Match` if the normalized set has size 1 else `Mismatch`, overridden to
`Missing` when every value is in `(None, "", [])`. -/
def masterStatus (values : List Value) : String :=
  let status := if (masterNormalized values).length = 1 then "Match" else "Mismatch"
  if values.all (fun v => emptyTriple v) then "Missing" else status

/-- Pairwise comparison status (main.py, compare_docs pairwise loop):
`Match` iff the trimmed stringifications agree, overridden to `Missing`
when both values are falsy. -/
def pairwiseStatus (v1 v2 : Value) : String :=
  let stat := if pyStrip (pyStr v1) = pyStrip (pyStr v2) then "Match" else "Mismatch"
  if falsy v1 && falsy v2 then "Missing" else stat

/-- A line item as produced by `extract_items_from_lines`. -/
structure Item where
  description : Option String
  hsCode : Option String
  quantity : Option String
  amount : Option String
  currency : Option String
deriving DecidableEq, Repr

/-- The per-document record `doc_info` assembled in `compare_docs`. -/
structure DocInfo where
  filename : String
  invoice_no : Option String
  date : Option String
  amount : Option String
  currency : Option String
  exporter : Option String
  consignee : Option String
  port_loading : Option String
  port_dest : Option String
  mode : Option String
  qty_sum : Int
  items : List Item
deriving DecidableEq, Repr

/-- Keep only ASCII digits of a string (`re.sub(r"[^\d]", "", s)`). -/
def digitsOnly (s : String) : String :=
  String.mk (s.toList.filter (fun c => c.isDigit))

/-- Numeric value of a digit string. -/
def digitsToNat (cs : List Char) : Nat :=
  cs.foldl (fun a c => a * 10 + (c.toNat - 48)) 0

/-- `str(v)` for an optional string (`str(None) = "None"`). -/
def pyStrOpt : Option String → String
  | none => "None"
  | some s => s

/-- `safe_int` from main.py: `int(re.sub(r"[^\d]", "", str(s)))`, with any
exception (empty digit string) mapped to 0. -/
def safeInt (v : Option String) : Int :=
  let d := digitsOnly (pyStrOpt v)
  if d = "" then 0 else (digitsToNat d.toList : Int)

/-- `qty_sum`: `sum(safe_int(i.get("Quantity")) for i in items)`. -/
def qtySum (items : List Item) : Int :=
  (items.map (fun it => safeInt it.quantity)).sum

/-- `doc.get(field)` for the nine tracked comparison fields. -/
def fieldValue (d : DocInfo) (field : String) : Value :=
  if field = "invoice_no" then d.invoice_no.map Val.s
  else if field = "date" then d.date.map Val.s
  else if field = "exporter" then d.exporter.map Val.s
  else if field = "consignee" then d.consignee.map Val.s
  else if field = "port_loading" then d.port_loading.map Val.s
  else if field = "port_dest" then d.port_dest.map Val.s
  else if field = "mode" then d.mode.map Val.s
  else if field = "currency" then d.currency.map Val.s
  else if field = "qty_sum" then some (Val.i d.qty_sum)
  else none

/-- The tracked field list of `compare_docs`. -/
def trackedFields : List String :=
  ["invoice_no", "date", "exporter", "consignee", "port_loading",
   "port_dest", "mode", "currency", "qty_sum"]

/-- Master comparison row status for a field over all documents. -/
def comparisonRowStatus (docs : List DocInfo) (field : String) : String :=
  masterStatus (docs.map (fun d => fieldValue d field))

/-! ## Numeric parsing shared by fraud_rules.py and pattern_detector.py -/

/-- `re.sub(r"[^\d.]", "", s)`: keep only digits and decimal points. -/
def stripToNumber (s : String) : String :=
  String.mk (s.toList.filter (fun c => c.isDigit || c == '.'))

/-- Split a character list on the dots (the groups of `s.split(".")`). -/
def splitDot : List Char → List (List Char)
  | [] => [[]]
  | c :: rest =>
      match splitDot rest with
      | [] => [[]]
      | g :: gs => if c == '.' then [] :: g :: gs else (c :: g) :: gs

/-- Python `float(s)` on a digits-and-dots string, as an exact rational:
fails on the empty string, a lone ".", or more than one dot (the values
actually compared in the claims are exactly representable, so modelling
the float as the exact decimal is faithful). -/
def parsePyFloat (s : String) : Option ℚ :=
  if s.toList.all (fun c => c.isDigit || c == '.') then
    match splitDot s.toList with
    | [a] => if a.isEmpty then none else some ((digitsToNat a : ℚ))
    | [a, b] =>
        if a.isEmpty && b.isEmpty then none
        else some ((digitsToNat a : ℚ) + (digitsToNat b : ℚ) / ((10 : ℚ) ^ b.length))
    | _ => none
  else none

/-- Python truthiness of an optional string (`if d.get(k):`). -/
def truthyStr : Option String → Bool
  | none => false
  | some s => ! (s == "")

/-- `str(d.get("amount") or 0)`: a missing or empty amount becomes `"0"`. -/
def pyAmountStr : Option String → String
  | none => "0"
  | some s => if s = "" then "0" else s

/-! ## fraud_rules.check_invoice_integrity -/

/-- An entry of the `rules` list built by `check_invoice_integrity`
(`doc` is absent on the exporter-variation and duplicate-invoice rules). -/
structure Alert where
  rule : String
  severity : String
  doc : Option String
  explanation : String
deriving DecidableEq, Repr

/-- `sum(float(re.sub(r"[^\d.]", "", i.get("Amount", "0"))) for i in items
if i.get("Amount"))`; a parse failure anywhere raises, modelled by `none`. -/
def itemSum (items : List Item) : Option ℚ :=
  ((items.filter (fun it => truthyStr it.amount)).mapM
      (fun it => parsePyFloat (stripToNumber (it.amount.getD ("0"))))).map List.sum

/-- `float(re.sub(r"[^\d.]", "", str(d.get("amount") or 0)))`. -/
def invTotal (d : DocInfo) : Option ℚ :=
  parsePyFloat (stripToNumber (pyAmountStr d.amount))

/-- The "Invoice total mismatch" alert record (the numeric rendering of the
two rationals in the explanation abstracts Python float formatting). -/
def mkTotalAlert (d : DocInfo) (s t : ℚ) : Alert :=
  { rule := "Invoice total mismatch", severity := "High", doc := some d.filename,
    explanation := ("Sum of item totals (") ++ toString s ++ (") ≠ invoice total (") ++ toString t ++ (").") }

/-- Per-document invoice-total check: skipped when the item list is empty
(`if not d.get("items"): continue`) or a parse fails (`except: continue`). -/
def docTotalAlert (d : DocInfo) : Option Alert :=
  if d.items.isEmpty then none
  else
    match itemSum d.items, invTotal d with
    | some s, some t => if |s - t| > (0.02 : ℚ) * t then some (mkTotalAlert d s t) else none
    | _, _ => none

/-- The invoice-total rule over the whole document set. -/
def totalMismatchAlerts (docs : List DocInfo) : List Alert :=
  docs.filterMap docTotalAlert

/-- `re.sub(r"[\W_]", "", e.lower())`: lowercase, keep alphanumerics. -/
def normalizedExporter (e : String) : String :=
  String.mk ((e.toList.map Char.toLower).filter (fun c => c.isAlphanum))

/-- The exporter punctuation-spoof rule. -/
def exporterFormatAlerts (docs : List DocInfo) : List Alert :=
  let exporters := docs.filterMap (fun d => if truthyStr d.exporter then d.exporter else none)
  let normalized := exporters.map normalizedExporter
  if 2 ≤ normalized.dedup.length then
    [{ rule := "Exporter name format variation", severity := "Medium", doc := none,
       explanation := ("Exporter names differ slightly: ") ++ String.intercalate (", ") exporters }]
  else []

/-- The duplicate-invoice-number rule. -/
def duplicateInvoiceAlerts (docs : List DocInfo) : List Alert :=
  let nums := docs.filterMap (fun d => if truthyStr d.invoice_no then d.invoice_no else none)
  if nums.length ≠ nums.dedup.length then
    [{ rule := "Duplicate Invoice Number", severity := "High", doc := none,
       explanation := ("Repeated invoice number found: ") ++ String.intercalate (", ") nums }]
  else []

/-- `check_invoice_integrity`: the three rules, appended in source order. -/
def checkInvoiceIntegrity (docs : List DocInfo) : List Alert :=
  totalMismatchAlerts docs ++ exporterFormatAlerts docs ++ duplicateInvoiceAlerts docs

/-! ## pattern_detector.detect_patterns -/

/-- An alert of `detect_patterns`.  The z-score itself is a square root and
therefore irrational; its two threshold comparisons (2 and 3) are modelled
on squares, which determines the `severity` field exactly. -/
structure PatternAlert where
  ptype : String
  doc : Option String
  value : Option ℚ
  meanVal : Option ℚ
  severity : String
  values : List String
  message : String
deriving DecidableEq, Repr

/-- The amounts list: per document, `float(re.sub(r"[^\d.]", "",
str(d.get("amount") or 0)))`, parse failures skipped. -/
def parsedAmounts (docs : List DocInfo) : List ℚ :=
  docs.filterMap (fun d => parsePyFloat (stripToNumber (pyAmountStr d.amount)))

/-- `statistics.mean`. -/
def listMean (xs : List ℚ) : ℚ := xs.sum / (xs.length : ℚ)

/-- The square of `statistics.stdev` (sample variance, n−1 denominator). -/
def sampleVar (xs : List ℚ) : ℚ :=
  (xs.map (fun a => (a - listMean xs) ^ 2)).sum / ((xs.length : ℚ) - 1)

/-- Fallback document for the `extracted_docs[i]` lookup (never reached:
there are at least as many documents as parsed amounts). -/
def defaultDoc : DocInfo :=
  { filename := "", invoice_no := none, date := none, amount := none,
    currency := none, exporter := none, consignee := none, port_loading := none,
    port_dest := none, mode := none, qty_sum := 0, items := [] }

/-- Value-spike detection: with at least 3 parsed amounts, flag each amount
whose |a − mean|/stdev exceeds 2 (squared form: (a−mean)² > 4·variance),
High severity above 3 (squared: 9·variance). -/
def valueSpikeAlerts (docs : List DocInfo) : List PatternAlert :=
  let amounts := parsedAmounts docs
  if 3 ≤ amounts.length then
    let m := listMean amounts
    let v := sampleVar amounts
    amounts.enum.filterMap (fun p =>
      if v ≠ 0 ∧ (p.2 - m) ^ 2 > 4 * v then
        some { ptype := "Value Spike",
               doc := some ((docs.getD p.1 defaultDoc).filename),
               value := some p.2, meanVal := some m,
               severity := if (p.2 - m) ^ 2 > 9 * v then "High" else "Medium",
               values := [],
               message := ("Invoice amount deviates significantly from average ($") ++ toString m ++ (").") }
      else none)
  else []

/-- Exporter-name variation alert. -/
def exporterVariationAlerts (docs : List DocInfo) : List PatternAlert :=
  let exporters := docs.filterMap (fun d => if truthyStr d.exporter then d.exporter else none)
  if 2 ≤ exporters.dedup.length then
    [{ ptype := "Exporter Name Variation", doc := none, value := none, meanVal := none,
       severity := "Medium", values := exporters,
       message := "Exporter names vary slightly across documents — check for spoofing or formatting differences." }]
  else []

/-- Transport-mode variation alert. -/
def transportVariationAlerts (docs : List DocInfo) : List PatternAlert :=
  let modes := docs.filterMap (fun d => if truthyStr d.mode then d.mode else none)
  if 2 ≤ modes.dedup.length then
    [{ ptype := "Transport Mode Variation", doc := none, value := none, meanVal := none,
       severity := "Low", values := modes,
       message := "Different transport modes detected — verify shipment consistency." }]
  else []

/-- `detect_patterns`: the three alert families in source order. -/
def detectPatterns (docs : List DocInfo) : List PatternAlert :=
  valueSpikeAlerts docs ++ exporterVariationAlerts docs ++ transportVariationAlerts docs

/-! ## HS code intelligence (main.py, compare_docs) -/

/-- An `hs_map` entry `{"doc": filename, "hs": code.strip()}`. -/
structure HsEntry where
  doc : String
  hs : String
deriving DecidableEq, Repr

/-- `hs_map`: every truthy line-item HS code across all documents, trimmed. -/
def hsMap (docs : List DocInfo) : List HsEntry :=
  docs.flatMap (fun d => d.items.filterMap (fun it =>
    match it.hsCode with
    | some h => if h ≠ "" then some { doc := d.filename, hs := pyStrip h } else none
    | none => none))

structure HsAnalysis where
  summary : String
  risk_level : String
  details : List HsEntry
deriving DecidableEq, Repr

/-- The HS-consistency block of `compare_docs`: High when no codes at all;
Low for a single unique code; Medium for several codes within one
two-digit chapter; High otherwise.  Python `set` sizes are dedup lengths
(set iteration order in the summary strings is modelled by dedup order). -/
def hsAnalysisOf (docs : List DocInfo) : HsAnalysis :=
  let m := hsMap docs
  if m.isEmpty then
    { summary := "No HS codes found in any document.", risk_level := "High", details := m }
  else
    let uniqueCodes := (m.map (fun e => e.hs)).dedup
    let chapters := ((m.map (fun e => e.hs)).filter (fun h => 2 ≤ h.length)).map (fun h => pyTake 2 h)
    let uniqueChapters := chapters.dedup
    if uniqueCodes.length = 1 then
      { summary := ("All documents share the same HS Code: ") ++ uniqueCodes.headD (""),
        risk_level := "Low", details := m }
    else if uniqueChapters.length = 1 then
      { summary := ("Different HS Codes, but same chapter (") ++ uniqueChapters.headD ("") ++ ("). Moderate consistency."),
        risk_level := "Medium", details := m }
    else
      { summary := ("HS Code inconsistency detected. Chapters differ across documents: ") ++ String.intercalate (", ") uniqueChapters,
        risk_level := "High", details := m }

/-- The HS risk level alone. -/
def hsRiskOf (docs : List DocInfo) : String := (hsAnalysisOf docs).risk_level

/-! ## Cognitive score (main.py, Phase 4.1) -/

/-- `score_from_level`: falsy levels give 100, the three known levels map
through the table, anything else 80. -/
def scoreFromLevel (level : Option String) : ℤ :=
  match level with
  | none => 100
  | some l =>
      if l = "" then 100
      else if l = "Low" then 95
      else if l = "Medium" then 75
      else if l = "High" then 45
      else 80

/-- Number of High-severity fraud alerts. -/
def highCount (alerts : List Alert) : ℕ :=
  (alerts.filter (fun a => a.severity == "High")).length

/-- Number of High-severity pattern alerts. -/
def highPatternCount (alerts : List PatternAlert) : ℕ :=
  (alerts.filter (fun a => a.severity == "High")).length

/-- `weighted = base*0.4 + hs_score*0.2 + sanc_score*0.2 + inco_score*0.2`
with `base = 100 - 4*len(mismatch_report) - 8*#HighFraud - 5*#HighPattern`.
Python float products of these integers with 0.4/0.2 are exactly the
ideal values, so exact rational arithmetic is faithful. -/
def cognitiveWeighted (mismatchCount : ℕ) (fraudReport : List Alert)
    (patternReport : List PatternAlert) (hs sanc inco : Option String) : ℚ :=
  let base : ℤ := 100 - 4 * (mismatchCount : ℤ) - 8 * (highCount fraudReport : ℤ)
      - 5 * (highPatternCount patternReport : ℤ)
  (base : ℚ) * 0.4 + (scoreFromLevel hs : ℚ) * 0.2
    + (scoreFromLevel sanc : ℚ) * 0.2 + (scoreFromLevel inco : ℚ) * 0.2

/-- `cognitive_score = int(max(0, min(100, weighted)))`; the argument is
clamped to [0,100] so `int` truncation is the floor. -/
def cognitiveScore (mismatchCount : ℕ) (fraudReport : List Alert)
    (patternReport : List PatternAlert) (hs sanc inco : Option String) : ℤ :=
  ⌊max 0 (min 100 (cognitiveWeighted mismatchCount fraudReport patternReport hs sanc inco))⌋

/-- The risk tier thresholds. -/
def riskTier (score : ℤ) : String :=
  if 90 ≤ score then "Low" else if 70 ≤ score then "Medium" else "High"

/-- The claim side of C1, written from the spec sentence: the fixed level
table (Low→95, Medium→75, High→45, unknown→80). -/
def claimLevelScore (l : String) : ℤ :=
  if l = "Low" then 95 else if l = "Medium" then 75 else if l = "High" then 45 else 80

/-- The claim side of C1: `int(clamp(0.4*base + 0.2*hs + 0.2*sanction +
0.2*incoterm, 0, 100))` with `base = 100 - 4*m - 8*f - 5*p`. -/
def claimCognitive (m f p : ℕ) (hs sanc inco : String) : ℤ :=
  let base : ℤ := 100 - 4 * (m : ℤ) - 8 * (f : ℤ) - 5 * (p : ℤ)
  ⌊max 0 (min 100 ((0.4 : ℚ) * (base : ℚ) + (0.2 : ℚ) * (claimLevelScore hs : ℚ)
      + (0.2 : ℚ) * (claimLevelScore sanc : ℚ) + (0.2 : ℚ) * (claimLevelScore inco : ℚ)))⌋

/-! ## Cognitive memory and anomaly tracker (main.py, Phase 4.4) -/

/-- A persisted run record. -/
structure MemoryRecord where
  timestamp : String
  exporters : List (Option String)
  consignees : List (Option String)
  ports : List String
  cognitive_score : ℤ
  risk_tier : String
  hs_risk : String
  mismatch_count : ℕ
deriving DecidableEq, Repr

/-- `save_memory`: the store is rewritten with `records[-10:]`. -/
def saveMemory (records : List MemoryRecord) : List MemoryRecord :=
  records.drop (records.length - 10)

/-- Recurring exporters: truthy strings appearing both in some record of
`history[:-1]` and in the current record's exporters (a Python set,
modelled as a deduplicated list). -/
def recurringExportersOf (history : List MemoryRecord) (cur : MemoryRecord) : List String :=
  (history.dropLast.flatMap (fun prev =>
    prev.exporters.filterMap (fun e =>
      match e with
      | some x => if x ≠ "" ∧ some x ∈ cur.exporters then some x else none
      | none => none))).dedup

/-- Recurring destination ports, same scheme (`ports` holds no `None`). -/
def recurringPortsOf (history : List MemoryRecord) (cur : MemoryRecord) : List String :=
  (history.dropLast.flatMap (fun prev =>
    prev.ports.filterMap (fun p =>
      if p ≠ "" ∧ p ∈ cur.ports then some p else none))).dedup

/-- A `trend_data` entry. -/
structure TrendPoint where
  timestamp : String
  cognitive_score : ℤ
  risk_tier : String
  exporters : List (Option String)
  ports : List String
  mismatch_count : ℕ
deriving DecidableEq, Repr

/-- The observable results of the memory/anomaly block. -/
structure MemoryOut where
  persisted : List MemoryRecord
  returnedScore : ℤ
  recurring_exporters : List String
  recurring_ports : List String
  total_records : ℕ
  anomalyNoted : Bool
  trend : List TrendPoint
deriving DecidableEq, Repr

/-- Lines 834–889 of main.py: append the current record, persist the last
10, compare against all prior records, and subtract the penalty (floored
at 0) only when a recurrence exists. -/
def memoryStage (loaded : List MemoryRecord) (cur : MemoryRecord) (score : ℤ) : MemoryOut :=
  let history := loaded ++ [cur]
  let persisted := saveMemory history
  let re := recurringExportersOf history cur
  let rp := recurringPortsOf history cur
  let penalty : ℤ := 5 * ((re.length : ℤ) + (rp.length : ℤ))
  let adjusted := if re ≠ [] ∨ rp ≠ [] then max 0 (score - penalty) else score
  { persisted := persisted, returnedScore := adjusted,
    recurring_exporters := re, recurring_ports := rp,
    total_records := history.length,
    anomalyNoted := ! re.isEmpty || ! rp.isEmpty,
    trend := history.map (fun h =>
      { timestamp := h.timestamp, cognitive_score := h.cognitive_score,
        risk_tier := h.risk_tier, exporters := h.exporters,
        ports := h.ports, mismatch_count := h.mismatch_count }) }

/-- The run metadata of `current_record` other than the score. -/
structure RunMeta where
  timestamp : String
  exporters : List (Option String)
  consignees : List (Option String)
  ports : List String
  hs_risk : String
  mismatch_count : ℕ
deriving DecidableEq, Repr

/-- `current_record`: built from the run metadata and the cognitive score
computed before the historical penalty. -/
def mkCurrentRecord (meta : RunMeta) (score : ℤ) : MemoryRecord :=
  { timestamp := meta.timestamp, exporters := meta.exporters,
    consignees := meta.consignees, ports := meta.ports,
    cognitive_score := score, risk_tier := riskTier score,
    hs_risk := meta.hs_risk, mismatch_count := meta.mismatch_count }

/-! ## A small backtracking regex engine

`find_field_by_synonyms` (main.py) is driven by `re.search` with the
`re.IGNORECASE` flag.  The constructs used by the synonym table and the
two value templates are: case-insensitive literals, `\b`, `\s*`,
character classes, `?`, `+`, `{2,100}`, `(...)` groups, alternation and
the lazy `.*?`.  The engine below implements exactly these with Python's
backtracking priority (greedy prefers longer, lazy shorter, alternation
left-first, search leftmost), with captures recorded per group number.
Fuel bounds the recursion depth; it is chosen amply for the inputs that
appear in the theorems, and an exhausted engine reports "no match", which
never manufactures a spurious match. -/

inductive RE where
  | eps : RE
  | lit : Char → RE
  | anyOf : List Char → RE
  | notOf : List Char → RE
  | wordB : RE
  | cat : RE → RE → RE
  | alt : RE → RE → RE
  | starG : RE → RE
  | starL : RE → RE
  | optG : RE → RE
  | repG : Nat → Nat → RE → RE
  | grp : Nat → RE → RE
deriving DecidableEq, Repr

/-- `\w` for ASCII input (re module word characters). -/
def isWordChar (c : Char) : Bool := c.isAlphanum || c == '_'

/-- `\s` for ASCII input. -/
def spaceChars : List Char := [' ', '\t', '\n', '\r', '\x0b', '\x0c']

/-- Captures: (group number, start, end), most recent first. -/
abbrev Caps := List (Nat × Nat × Nat)

/-- The backtracking matcher in continuation-passing style; the first
success in priority order wins.  `fuel` decreases on every recursive
call, which makes the recursion structural. -/
def mats : Nat → RE → List Char → Nat → Caps → (Nat → Caps → Option Caps) → Option Caps
  | 0, _, _, _, _, _ => none
  | _ + 1, RE.eps, _, i, cps, k => k i cps
  | _ + 1, RE.lit c, s, i, cps, k =>
      match s.get? i with
      | some d => if c.toLower = d.toLower then k (i + 1) cps else none
      | none => none
  | _ + 1, RE.anyOf cs, s, i, cps, k =>
      match s.get? i with
      | some d => if cs.contains d then k (i + 1) cps else none
      | none => none
  | _ + 1, RE.notOf cs, s, i, cps, k =>
      match s.get? i with
      | some d => if cs.contains d then none else k (i + 1) cps
      | none => none
  | _ + 1, RE.wordB, s, i, cps, k =>
      let prevW := if i = 0 then false else match s.get? (i - 1) with
        | some d => isWordChar d
        | none => false
      let curW := match s.get? i with
        | some d => isWordChar d
        | none => false
      if prevW ≠ curW then k i cps else none
  | f + 1, RE.cat a b, s, i, cps, k =>
      mats f a s i cps (fun j cps2 => mats f b s j cps2 k)
  | f + 1, RE.alt a b, s, i, cps, k =>
      (mats f a s i cps k) <|> (mats f b s i cps k)
  | f + 1, RE.starG r, s, i, cps, k =>
      (mats f r s i cps (fun j cps2 => if i < j then mats f (RE.starG r) s j cps2 k else none))
        <|> k i cps
  | f + 1, RE.starL r, s, i, cps, k =>
      (k i cps)
        <|> (mats f r s i cps (fun j cps2 => if i < j then mats f (RE.starL r) s j cps2 k else none))
  | f + 1, RE.optG r, s, i, cps, k =>
      (mats f r s i cps k) <|> k i cps
  | f + 1, RE.repG lo hi r, s, i, cps, k =>
      match lo, hi with
      | 0, 0 => k i cps
      | 0, h + 1 =>
          (mats f r s i cps (fun j cps2 => if i < j then mats f (RE.repG 0 h r) s j cps2 k else none))
            <|> k i cps
      | l + 1, h => mats f r s i cps (fun j cps2 => mats f (RE.repG l (h - 1) r) s j cps2 k)
  | f + 1, RE.grp n r, s, i, cps, k =>
      mats f r s i cps (fun j cps2 => k j ((n, i, j) :: cps2))

/-- `re.search`: try every start position from the left, first match wins. -/
def reSearchCaps (re : RE) (text : String) : Option Caps :=
  let s := text.toList
  (List.range (s.length + 1)).findSome?
    (fun i => mats (16 * (s.length + 40)) re s i [] (fun _ cps => some cps))

/-- `m.group(n)` as a string slice of the input. -/
def capGroup (text : String) (cps : Caps) (n : Nat) : Option String :=
  (cps.find? (fun c => c.1 = n)).map
    (fun c => String.mk ((text.toList.drop c.2.1).take (c.2.2 - c.2.1)))

/-- Sequence a list of regexes. -/
def reSeq (rs : List RE) : RE := rs.foldr RE.cat RE.eps

/-- A case-insensitive literal word. -/
def litStr (w : String) : RE := reSeq (w.toList.map RE.lit)

/-- `\s*`. -/
def spStar : RE := RE.starG (RE.anyOf spaceChars)

/-- `r+` (greedy). -/
def rePlus (r : RE) : RE := RE.cat r (RE.starG r)

/-- Does the pattern contain a capture group?  (Determines whether the
appended value group is group 1 or group 2 of the composed regex.) -/
def hasGrp : RE → Bool
  | RE.eps | RE.lit _ | RE.anyOf _ | RE.notOf _ | RE.wordB => false
  | RE.cat a b | RE.alt a b => hasGrp a || hasGrp b
  | RE.starG r | RE.starL r | RE.optG r => hasGrp r
  | RE.repG _ _ r => hasGrp r
  | RE.grp _ _ => true

/-- The `FIELD_SYNONYMS` table of main.py, pattern by pattern.  Patterns
with their own group (`port_dest` pattern 1, `mode` pattern 3) carry
group number 1, exactly as in the source regex strings. -/
def fieldSynonyms (key : String) : List RE :=
  if key = "invoice_no" then
    [reSeq [litStr ("invoice"), spStar, litStr ("no"), RE.optG (RE.lit '.')],
     reSeq [litStr ("inv"), spStar, RE.optG (RE.lit '#')],
     reSeq [litStr ("invoice"), spStar, litStr ("number")],
     reSeq [litStr ("bill"), spStar, litStr ("no"), RE.optG (RE.lit '.')],
     reSeq [litStr ("reference"), spStar, litStr ("no"), RE.optG (RE.lit '.')]]
  else if key = "date" then
    [reSeq [RE.wordB, litStr ("date"), RE.wordB],
     reSeq [litStr ("invoice"), spStar, litStr ("date")],
     reSeq [litStr ("dt"), RE.lit '.']]
  else if key = "exporter" then
    [reSeq [RE.wordB, litStr ("exporter"), RE.wordB],
     reSeq [RE.wordB, litStr ("seller"), RE.wordB],
     reSeq [RE.wordB, litStr ("shipper"), RE.wordB],
     reSeq [litStr ("exported"), spStar, litStr ("by")]]
  else if key = "consignee" then
    [reSeq [RE.wordB, litStr ("consignee"), RE.wordB],
     reSeq [RE.wordB, litStr ("buyer"), RE.wordB],
     reSeq [RE.wordB, litStr ("to"), spStar, litStr ("party"), RE.wordB],
     reSeq [RE.wordB, litStr ("client"), RE.wordB]]
  else if key = "currency" then
    [reSeq [RE.wordB, litStr ("currency"), RE.wordB],
     reSeq [RE.wordB, litStr ("cur"), RE.wordB]]
  else if key = "port_loading" then
    [reSeq [litStr ("port"), spStar, litStr ("of"), spStar, litStr ("loading")],
     reSeq [litStr ("pol"), RE.wordB]]
  else if key = "port_dest" then
    [reSeq [litStr ("port"), spStar, litStr ("of"), spStar,
       RE.grp 1 (RE.alt (litStr ("destination")) (litStr ("discharge")))],
     reSeq [litStr ("pod"), RE.wordB],
     reSeq [litStr ("final"), spStar, litStr ("destination")]]
  else if key = "mode" then
    [reSeq [litStr ("mode"), spStar, litStr ("of"), spStar, litStr ("transport")],
     reSeq [RE.wordB, litStr ("transport"), RE.wordB],
     reSeq [RE.wordB, litStr ("by"), spStar,
       RE.grp 1 (RE.alt (litStr ("air")) (RE.alt (litStr ("sea")) (RE.alt (litStr ("road")) (litStr ("rail"))))),
       RE.wordB]]
  else if key = "gstin" then
    [reSeq [RE.wordB, litStr ("gstin"), RE.wordB]]
  else []

/-- The value group number of the composed regexes (2 when the synonym
pattern has its own group, else 1). -/
def valueGroupIdx (pat : RE) : Nat := if hasGrp pat then 2 else 1

/-- `pat + r"\s*[:\-]?\s*([^\n\r]+)"`. -/
def sameLineRE (pat : RE) : RE :=
  reSeq [pat, spStar, RE.optG (RE.anyOf [':', '-']), spStar,
    RE.grp (valueGroupIdx pat) (rePlus (RE.notOf ['\n', '\r']))]

/-- `pat + r".*?\n\s*([^\n\r]{2,100})"` (`.` excludes only `\n`). -/
def nextLineRE (pat : RE) : RE :=
  reSeq [pat, RE.starL (RE.notOf ['\n']), RE.lit '\n', spStar,
    RE.grp (valueGroupIdx pat) (RE.repG 2 100 (RE.notOf ['\n', '\r']))]

/-- The same-line attempt: `m.group(1)` of the composed search. -/
def sameLineCapture (pat : RE) (text : String) : Option String :=
  (reSearchCaps (sameLineRE pat) text).bind (fun cps => capGroup text cps 1)

/-- The next-line attempt. -/
def nextLineCapture (pat : RE) (text : String) : Option String :=
  (reSearchCaps (nextLineRE pat) text).bind (fun cps => capGroup text cps 1)

/-- The resolution loop of `find_field_by_synonyms`: per pattern, return
the trimmed same-line capture if it matched, else the trimmed next-line
capture if it matched, else move to the next pattern. -/
def resolveLoop : List RE → String → Option String
  | [], _ => none
  | p :: rest, text =>
      match sameLineCapture p text with
      | some v => some (pyStrip v)
      | none =>
          match nextLineCapture p text with
          | some v => some (pyStrip v)
          | none => resolveLoop rest text

/-- `find_field_by_synonyms(text, field_key)`. -/
def findFieldBySynonyms (text : String) (key : String) : Option String :=
  if text = "" then none else resolveLoop (fieldSynonyms key) text

/-! ## Concrete instances used by the witnesses and counterexamples -/

/-- A line item carrying only an amount. -/
def itemAmt (a : String) : Item :=
  { description := none, hsCode := none, quantity := none, amount := some a, currency := none }

/-- A document with items of 40 and 60 against a given invoice total. -/
def docInv (total : String) : DocInfo :=
  { filename := "invoice.pdf", invoice_no := none, date := none, amount := some total,
    currency := none, exporter := none, consignee := none, port_loading := none,
    port_dest := none, mode := none, qty_sum := 0,
    items := [itemAmt ("40"), itemAmt ("60")] }

/-- A bare document with just a filename and an amount string. -/
def docAmt (nm amt : String) : DocInfo :=
  { filename := nm, invoice_no := none, date := none, amount := some amt,
    currency := none, exporter := none, consignee := none, port_loading := none,
    port_dest := none, mode := none, qty_sum := 0, items := [] }

/-- The four documents of the anomaly-detection example. -/
def docsC2 : List DocInfo :=
  [docAmt ("a.pdf") ("100"), docAmt ("b.pdf") ("102"),
   docAmt ("c.pdf") ("98"), docAmt ("d.pdf") ("5000")]

/-- A line item carrying only a tariff code. -/
def itemHs (h : String) : Item :=
  { description := none, hsCode := some h, quantity := none, amount := none, currency := none }

/-- A document whose items carry the given tariff codes. -/
def docHs (codes : List String) : DocInfo :=
  { filename := "doc.pdf", invoice_no := none, date := none, amount := none,
    currency := none, exporter := none, consignee := none, port_loading := none,
    port_dest := none, mode := none, qty_sum := 0, items := codes.map itemHs }

/-- Tariff codes sharing chapter 85. -/
def docsHsMedium : List DocInfo := [docHs ["850130", "850199"]]

/-- Tariff codes of chapters 85 and 27. -/
def docsHsHigh : List DocInfo := [docHs ["850130", "271019"]]

/-- A High-severity fraud alert (for exhibiting score-zero runs). -/
def highFraudAlert : Alert :=
  { rule := "Invoice total mismatch", severity := "High", doc := none, explanation := "" }

/-- Twenty High-severity fraud alerts: `base = 100 - 36 - 160 = -96`. -/
def fraudHigh20 : List Alert := List.replicate 20 highFraudAlert

/-- Twenty-one High-severity fraud alerts: `base = 100 - 36 - 168 = -104`. -/
def fraudHigh21 : List Alert := List.replicate 21 highFraudAlert

/-- A prior run that saw exporter "Acme Exports". -/
def recAcme0 : MemoryRecord :=
  { timestamp := "t0", exporters := [some ("Acme Exports")], consignees := [],
    ports := [], cognitive_score := 60, risk_tier := "Medium", hs_risk := "Low",
    mismatch_count := 0 }

/-- The current run, sharing exactly the exporter "Acme Exports". -/
def curAcme : MemoryRecord :=
  { timestamp := "t1", exporters := [some ("Acme Exports")], consignees := [],
    ports := [], cognitive_score := 0, risk_tier := "High", hs_risk := "High",
    mismatch_count := 9 }

/-- A prior run that saw exporter "Globex". -/
def prevGlobex : MemoryRecord :=
  { timestamp := "t0", exporters := [some ("Globex")], consignees := [],
    ports := [], cognitive_score := 40, risk_tier := "High", hs_risk := "Low",
    mismatch_count := 0 }

/-- Metadata of a current run sharing exporter "Globex". -/
def metaGlobex : RunMeta :=
  { timestamp := "t1", exporters := [some ("Globex")], consignees := [],
    ports := [], hs_risk := "High", mismatch_count := 9 }

/-- Generic run metadata for witnesses. -/
def metaPlain : RunMeta :=
  { timestamp := "t2", exporters := [some ("Initech")], consignees := [],
    ports := [], hs_risk := "Low", mismatch_count := 0 }

/-! ## Theorems -/

/-- The adjusted score always equals the penalty formula, also when no
recurrence exists (then the code skips the subtraction, but the penalty
is 0 and the cognitive score is nonnegative). -/
lemma memoryStage_returned (loaded : List MemoryRecord) (cur : MemoryRecord)
    (score : ℤ) (h : 0 ≤ score) :
    (memoryStage loaded cur score).returnedScore
      = max 0 (score - 5 * (((memoryStage loaded cur score).recurring_exporters.length : ℤ)
          + ((memoryStage loaded cur score).recurring_ports.length : ℤ))) := by
  unfold memoryStage
  dsimp only
  split
  · rfl
  · rename_i hcond
    push_neg at hcond
    rw [hcond.1, hcond.2]
    simp
    omega

/-- C7 (confirmed): the persisted historical memory never holds more than
10 records at rest: `save_memory` rewrites the store as `records[-10:]`,
a suffix of the appended history of length at most 10 (exactly 10 once
the history reaches the cap), and each comparison run persists exactly
`saveMemory (loaded ++ [current])`. -/
theorem memory_cap_ten :
    (∀ records : List MemoryRecord,
        (saveMemory records).length ≤ 10
        ∧ saveMemory records <:+ records
        ∧ (records.length ≤ 10 → saveMemory records = records)
        ∧ (10 ≤ records.length → (saveMemory records).length = 10))
    ∧ (∀ (loaded : List MemoryRecord) (cur : MemoryRecord) (score : ℤ),
        (memoryStage loaded cur score).persisted = saveMemory (loaded ++ [cur])
        ∧ (memoryStage loaded cur score).persisted.length ≤ 10) := by
  constructor
  · intro records
    refine ⟨?_, List.drop_suffix _ _, ?_, ?_⟩
    · simp only [saveMemory, List.length_drop]
      omega
    · intro h
      have h0 : records.length - 10 = 0 := by omega
      simp [saveMemory, h0]
    · intro h
      simp only [saveMemory, List.length_drop]
      omega
  · intro loaded cur score
    refine ⟨rfl, ?_⟩
    simp only [memoryStage, saveMemory, List.length_drop]
    omega

/-- Witness for `memory_cap_ten`: a 12-record history is truncated to 10. -/
theorem memory_cap_ten_witness :
    (List.replicate 12 recAcme0).length ≤ 10 →
      saveMemory (List.replicate 12 recAcme0) = List.replicate 12 recAcme0 := by
  have h := (memory_cap_ten.1 (List.replicate 12 recAcme0)).2.2.1
  exact h

/-- C6 (corrected): the historical penalty is `5 × (#recurring exporters +
#recurring ports)` subtracted from the cognitive score and floored at 0;
when exactly one exporter recurs and no port does, the returned score is
exactly 5 less than the unadjusted score provided that score is at least
5 (otherwise the floor at 0 applies), and the recurring exporter is
reported in `risk_history.recurring_exporters`. -/
theorem historical_penalty_formula :
    (∀ (loaded : List MemoryRecord) (cur : MemoryRecord) (score : ℤ), 0 ≤ score →
        (memoryStage loaded cur score).returnedScore
          = max 0 (score - 5 * (((memoryStage loaded cur score).recurring_exporters.length : ℤ)
              + ((memoryStage loaded cur score).recurring_ports.length : ℤ))))
    ∧ (∀ (loaded : List MemoryRecord) (cur : MemoryRecord) (score : ℤ) (x : String),
        (memoryStage loaded cur score).recurring_exporters = [x] →
        (memoryStage loaded cur score).recurring_ports = [] →
        5 ≤ score →
        (memoryStage loaded cur score).returnedScore = score - 5
        ∧ x ∈ (memoryStage loaded cur score).recurring_exporters) := by
  constructor
  · exact memoryStage_returned
  · intro loaded cur score x hx hp h5
    have h := memoryStage_returned loaded cur score (by omega)
    rw [hx, hp] at h
    simp only [List.length_cons, List.length_nil] at h
    constructor
    · rw [h]
      omega
    · rw [hx]
      exact List.mem_singleton_self x

/-- Witness for `historical_penalty_formula`: two consecutive runs sharing
exactly the exporter "Acme Exports" and an unadjusted score of 60. -/
theorem historical_penalty_formula_witness :
    (memoryStage [recAcme0] curAcme 60).recurring_exporters = ["Acme Exports"]
    ∧ (memoryStage [recAcme0] curAcme 60).recurring_ports = []
    ∧ (5 : ℤ) ≤ 60
    ∧ ((memoryStage [recAcme0] curAcme 60).returnedScore = 60 - 5
        ∧ "Acme Exports" ∈ (memoryStage [recAcme0] curAcme 60).recurring_exporters) :=
  ⟨by decide, by decide, by decide,
    historical_penalty_formula.2 [recAcme0] curAcme 60 ("Acme Exports")
      (by decide) (by decide) (by decide)⟩

/-- C6 counterexample: with an unadjusted score of 0 (attainable: 9
mismatches, 20 High fraud alerts and High HS/sanction risks drive the
weighted score below 0, where it is clamped), a run whose single
recurring exporter is "Acme Exports" returns 0, not `0 − 5`: the
"exactly 5 less" clause fails below the floor. -/
theorem historical_penalty_counterexample :
    (memoryStage [recAcme0] curAcme 0).recurring_exporters = ["Acme Exports"]
    ∧ (memoryStage [recAcme0] curAcme 0).recurring_ports = []
    ∧ (memoryStage [recAcme0] curAcme 0).returnedScore = 0
    ∧ (memoryStage [recAcme0] curAcme 0).returnedScore ≠ 0 - 5
    ∧ cognitiveScore 9 fraudHigh20 [] (some ("High")) (some ("High")) (some ("Low")) = 0 := by
  refine ⟨by decide, by decide, by decide, by decide, ?_⟩
  have h1 : scoreFromLevel (some ("High")) = 45 := rfl
  have h2 : scoreFromLevel (some ("Low")) = 95 := rfl
  have h3 : highCount fraudHigh20 = 20 := rfl
  have h4 : highPatternCount [] = 0 := rfl
  norm_num [cognitiveScore, cognitiveWeighted, h1, h2, h3, h4]

/-- C9 (corrected): the persisted MemoryRecord of a run stores the
cognitive score computed before the historical penalty (the record is
built and saved before the adjustment), the trend series repeats exactly
the stored scores, and whenever the penalty is nonzero and the stored
score is positive the returned score differs from the stored one.  (With
a stored score of 0 the floored adjustment returns 0 as well, so the
unconditional "differs" clause of the claim fails; see the
counterexample.) -/
theorem memory_record_prepenalty :
    ∀ (loaded : List MemoryRecord) (meta : RunMeta) (score : ℤ),
      (memoryStage loaded (mkCurrentRecord meta score) score).persisted.getLast?
          = some (mkCurrentRecord meta score)
      ∧ (mkCurrentRecord meta score).cognitive_score = score
      ∧ (memoryStage loaded (mkCurrentRecord meta score) score).trend.map
            (fun t => t.cognitive_score)
          = (loaded ++ [mkCurrentRecord meta score]).map (fun r => r.cognitive_score)
      ∧ (0 < score →
          5 * (((memoryStage loaded (mkCurrentRecord meta score) score).recurring_exporters.length : ℤ)
            + ((memoryStage loaded (mkCurrentRecord meta score) score).recurring_ports.length : ℤ)) ≠ 0 →
          (memoryStage loaded (mkCurrentRecord meta score) score).returnedScore
            ≠ (mkCurrentRecord meta score).cognitive_score) := by
  intro loaded meta score
  refine ⟨?_, rfl, ?_, ?_⟩
  · show (saveMemory (loaded ++ [mkCurrentRecord meta score])).getLast? = _
    unfold saveMemory
    rw [List.drop_append_of_le_length
      (by simp only [List.length_append, List.length_cons, List.length_nil]; omega)]
    exact List.getLast?_concat _
  · show ((loaded ++ [mkCurrentRecord meta score]).map _).map _ = _
    rw [List.map_map]
    rfl
  · intro hpos hpen
    have h := memoryStage_returned loaded (mkCurrentRecord meta score) score (by omega)
    rw [h]
    show max 0 (score - _) ≠ score
    omega

/-- Witness for `memory_record_prepenalty` at a concrete run. -/
theorem memory_record_prepenalty_witness :
    (memoryStage [prevGlobex] (mkCurrentRecord metaGlobex 80) 80).persisted.getLast?
        = some (mkCurrentRecord metaGlobex 80)
    ∧ (mkCurrentRecord metaGlobex 80).cognitive_score = 80
    ∧ (memoryStage [prevGlobex] (mkCurrentRecord metaGlobex 80) 80).trend.map
          (fun t => t.cognitive_score)
        = ([prevGlobex] ++ [mkCurrentRecord metaGlobex 80]).map (fun r => r.cognitive_score)
    ∧ ((0 : ℤ) < 80 →
        5 * (((memoryStage [prevGlobex] (mkCurrentRecord metaGlobex 80) 80).recurring_exporters.length : ℤ)
          + ((memoryStage [prevGlobex] (mkCurrentRecord metaGlobex 80) 80).recurring_ports.length : ℤ)) ≠ 0 →
        (memoryStage [prevGlobex] (mkCurrentRecord metaGlobex 80) 80).returnedScore
          ≠ (mkCurrentRecord metaGlobex 80).cognitive_score) :=
  memory_record_prepenalty [prevGlobex] metaGlobex 80

/-- C9 counterexample: a run whose pre-penalty cognitive score is 0 (shown
attainable from 9 mismatches and 21 High fraud alerts with High HS and
sanction risks) and whose exporter "Globex" recurs has a nonzero penalty,
yet the returned score equals the stored `cognitive_score` (both 0), so
"whenever the penalty is nonzero the returned score differs from the
persisted record's score" is false. -/
theorem memory_record_prepenalty_counterexample :
    5 * (((memoryStage [prevGlobex] (mkCurrentRecord metaGlobex 0) 0).recurring_exporters.length : ℤ)
        + ((memoryStage [prevGlobex] (mkCurrentRecord metaGlobex 0) 0).recurring_ports.length : ℤ)) = 5
    ∧ (memoryStage [prevGlobex] (mkCurrentRecord metaGlobex 0) 0).returnedScore
        = (mkCurrentRecord metaGlobex 0).cognitive_score
    ∧ cognitiveScore 9 fraudHigh21 [] (some ("High")) (some ("High")) (some ("Low")) = 0 := by
  refine ⟨by decide, by decide, ?_⟩
  have h1 : scoreFromLevel (some ("High")) = 45 := rfl
  have h2 : scoreFromLevel (some ("Low")) = 95 := rfl
  have h3 : highCount fraudHigh21 = 21 := rfl
  have h4 : highPatternCount [] = 0 := rfl
  norm_num [cognitiveScore, cognitiveWeighted, h1, h2, h3, h4]

/-- `score_from_level` agrees with the claim's table on every non-empty
level string. -/
lemma scoreFromLevel_claim (l : String) (h : l ≠ "") :
    scoreFromLevel (some l) = claimLevelScore l := by
  simp only [scoreFromLevel, claimLevelScore]
  rw [if_neg h]

/-- C1 (corrected): the cognitive score equals
`int(clamp(0.4*base + 0.2*hs + 0.2*sanction + 0.2*incoterm, 0, 100))`
with `base = 100 − 4·mismatches − 8·#HighFraud − 5·#HighPattern` and the
level table Low→95, Medium→75, High→45, other→80 (for non-empty level
strings; a falsy level scores 100), and the tier thresholds are ≥90 Low,
≥70 Medium, else High; however, for base = 100 with all three category
scores 95 the final score is 97 (= 40 + 19 + 19 + 19), not 100 — the
tier is still Low. -/
theorem cognitive_score_formula :
    (∀ (m : ℕ) (fr : List Alert) (pr : List PatternAlert) (hs sanc inco : String),
        hs ≠ "" → sanc ≠ "" → inco ≠ "" →
        cognitiveScore m fr pr (some hs) (some sanc) (some inco)
          = claimCognitive m (highCount fr) (highPatternCount pr) hs sanc inco)
    ∧ (∀ s : ℤ, (riskTier s = "Low" ↔ 90 ≤ s)
        ∧ (riskTier s = "Medium" ↔ 70 ≤ s ∧ s < 90)
        ∧ (riskTier s = "High" ↔ s < 70))
    ∧ cognitiveScore 0 [] [] (some ("Low")) (some ("Low")) (some ("Low")) = 97
    ∧ riskTier (cognitiveScore 0 [] [] (some ("Low")) (some ("Low")) (some ("Low"))) = "Low" := by
  have hscore : cognitiveScore 0 [] [] (some ("Low")) (some ("Low")) (some ("Low")) = 97 := by
    have h2 : scoreFromLevel (some ("Low")) = 95 := rfl
    norm_num [cognitiveScore, cognitiveWeighted, h2, highCount, highPatternCount]
  refine ⟨?_, ?_, hscore, by rw [hscore]; rfl⟩
  · intro m fr pr hs sanc inco hh hsa hi
    unfold cognitiveScore claimCognitive cognitiveWeighted
    rw [scoreFromLevel_claim hs hh, scoreFromLevel_claim sanc hsa, scoreFromLevel_claim inco hi]
    have hcomm : ∀ b h s i : ℚ,
        b * 0.4 + h * 0.2 + s * 0.2 + i * 0.2
          = 0.4 * b + 0.2 * h + 0.2 * s + 0.2 * i := by
      intro b h s i
      ring
    rw [hcomm]
  · intro s
    refine ⟨?_, ?_, ?_⟩ <;>
      · unfold riskTier
        split_ifs with h1 h2 <;> simp_all <;> omega

/-- Witness for `cognitive_score_formula` at concrete levels. -/
theorem cognitive_score_formula_witness :
    ("Medium" ≠ "") ∧ ("Low" ≠ "") ∧ ("High" ≠ "")
    ∧ cognitiveScore 3 [] [] (some ("Medium")) (some ("Low")) (some ("High"))
        = claimCognitive 3 (highCount []) (highPatternCount []) ("Medium") ("Low") ("High") :=
  ⟨by decide, by decide, by decide,
    cognitive_score_formula.1 3 [] [] ("Medium") ("Low") ("High")
      (by decide) (by decide) (by decide)⟩

/-- C1 counterexample: with base 100 and all three category scores 95 the
code returns 97, not the claimed 100. -/
theorem cognitive_example_counterexample :
    cognitiveScore 0 [] [] (some ("Low")) (some ("Low")) (some ("Low")) = 97
    ∧ cognitiveScore 0 [] [] (some ("Low")) (some ("Low")) (some ("Low")) ≠ 100 := by
  have hscore : cognitiveScore 0 [] [] (some ("Low")) (some ("Low")) (some ("Low")) = 97 := by
    have h2 : scoreFromLevel (some ("Low")) = 95 := rfl
    norm_num [cognitiveScore, cognitiveWeighted, h2, highCount, highPatternCount]
  exact ⟨hscore, by rw [hscore]; decide⟩

/-- C10 (confirmed): for two documents whose quantity sums are both 0
(e.g. no parseable item quantities), the pairwise row for `qty_sum` is
`Missing` (0 is falsy in the pairwise emptiness test) while the master
row over the same two documents is `Match` (0 is not in `(None, "", [])`,
so it counts as a present value "0"). -/
theorem qty_sum_pairwise_master_divergence :
    (∀ a b : DocInfo, a.qty_sum = 0 → b.qty_sum = 0 →
        pairwiseStatus (fieldValue a ("qty_sum")) (fieldValue b ("qty_sum")) = "Missing"
        ∧ masterStatus [fieldValue a ("qty_sum"), fieldValue b ("qty_sum")] = "Match")
    ∧ (∀ items : List Item, (∀ it ∈ items, digitsOnly (pyStrOpt it.quantity) = "") →
        qtySum items = 0)
    ∧ falsy (some (Val.i 0)) = true
    ∧ emptyTriple (some (Val.i 0)) = false := by
  refine ⟨?_, ?_, by decide, by decide⟩
  · intro a b ha hb
    have h1 : fieldValue a ("qty_sum") = some (Val.i a.qty_sum) := rfl
    have h2 : fieldValue b ("qty_sum") = some (Val.i b.qty_sum) := rfl
    rw [h1, h2, ha, hb]
    exact ⟨by decide, by decide⟩
  · intro items h
    apply List.sum_eq_zero
    intro x hx
    obtain ⟨it, hit, rfl⟩ := List.mem_map.mp hx
    simp only [safeInt, h it hit]
    rfl

/-- Witness for `qty_sum_pairwise_master_divergence` on two concrete
documents with unparseable quantities. -/
theorem qty_sum_pairwise_master_divergence_witness :
    ((docAmt ("a.pdf") ("100")).qty_sum = 0) ∧ ((docAmt ("b.pdf") ("102")).qty_sum = 0)
    ∧ (pairwiseStatus (fieldValue (docAmt ("a.pdf") ("100")) ("qty_sum"))
          (fieldValue (docAmt ("b.pdf") ("102")) ("qty_sum")) = "Missing"
        ∧ masterStatus [fieldValue (docAmt ("a.pdf") ("100")) ("qty_sum"),
            fieldValue (docAmt ("b.pdf") ("102")) ("qty_sum")] = "Match") :=
  ⟨by decide, by decide,
    qty_sum_pairwise_master_divergence.1 (docAmt ("a.pdf") ("100")) (docAmt ("b.pdf") ("102"))
      (by decide) (by decide)⟩

/-- C3 counterexample: for values `["a", None]` the master row status is
`Match` (the single non-empty trimmed value "a"), although the values are
neither all identical post-trim nor all empty — the claim's "equivalently:
Match when all N values are identical post-trim, … Mismatch otherwise"
reformulation would give `Mismatch`. -/
theorem master_status_counterexample :
    masterStatus [some (Val.s ("a")), none] = "Match"
    ∧ ([some (Val.s ("a")), (none : Value)].map trimOf).dedup.length ≠ 1
    ∧ ([some (Val.s ("a")), (none : Value)].all emptyTriple) = false := by
  decide

/-- C3 (corrected): the master row status is the stated pure function of
the values — `Missing` iff every value is empty/absent, `Match` iff some
value is non-empty and the set of stringified-trimmed non-empty values
has size 1, else `Mismatch`; the "all N values identical post-trim"
reformulation of `Match` is equivalent only when no value is empty. -/
theorem master_status_characterization :
    (∀ values : List Value,
        (masterStatus values = "Missing" ↔ values.all emptyTriple = true)
        ∧ (masterStatus values = "Match" ↔ values.all emptyTriple = false
            ∧ (masterNormalized values).length = 1)
        ∧ (masterStatus values = "Mismatch" ↔ values.all emptyTriple = false
            ∧ (masterNormalized values).length ≠ 1))
    ∧ (∀ values : List Value, values ≠ [] → (∀ v ∈ values, emptyTriple v = false) →
        (masterStatus values = "Match" ↔ ((values.map trimOf).dedup.length = 1))) := by
  constructor
  · intro values
    unfold masterStatus
    rcases hall : values.all (fun v => emptyTriple v)
    · simp only [hall, Bool.false_eq_true, if_false]
      by_cases hlen : (masterNormalized values).length = 1 <;> simp [hlen]
    · simp [hall]
  · intro values hne hemp
    have hall : values.all (fun v => emptyTriple v) = false := by
      rcases values with _ | ⟨v, vs⟩
      · exact absurd rfl hne
      · simp [List.all_cons, hemp v (by simp)]
    have hfilter : values.filter (fun v => ! emptyTriple v) = values :=
      List.filter_eq_self.mpr (fun a ha => by simp [hemp a ha])
    have hnorm : masterNormalized values = (values.map trimOf).dedup := by
      unfold masterNormalized
      rw [hfilter]
      rfl
    unfold masterStatus
    simp only [hall, Bool.false_eq_true, if_false, hnorm]
    by_cases hlen : ((values.map trimOf).dedup).length = 1 <;> simp [hlen]

/-- Witness for `master_status_characterization` on two identical
non-empty values. -/
theorem master_status_characterization_witness :
    ([some (Val.s ("x")), some (Val.s ("x"))] ≠ ([] : List Value))
    ∧ (∀ v ∈ [some (Val.s ("x")), some (Val.s ("x"))], emptyTriple v = false)
    ∧ (masterStatus [some (Val.s ("x")), some (Val.s ("x"))] = "Match"
        ↔ (([some (Val.s ("x")), some (Val.s ("x"))].map trimOf).dedup.length = 1)) :=
  ⟨by decide, by decide, master_status_characterization.2 _ (by decide) (by decide)⟩

/-- A list has exactly one distinct element iff it is nonempty and all
its elements coincide. -/
lemma dedup_length_eq_one {α : Type _} [DecidableEq α] (l : List α) :
    l.dedup.length = 1 ↔ l ≠ [] ∧ ∀ a ∈ l, ∀ b ∈ l, a = b := by
  constructor
  · intro h
    obtain ⟨x, hx⟩ := List.length_eq_one.mp h
    refine ⟨?_, ?_⟩
    · intro hnil
      rw [hnil] at hx
      simp at hx
    · intro a ha b hb
      have ha' : a ∈ l.dedup := List.mem_dedup.mpr ha
      have hb' : b ∈ l.dedup := List.mem_dedup.mpr hb
      rw [hx] at ha' hb'
      simp only [List.mem_singleton] at ha' hb'
      rw [ha', hb']
  · rintro ⟨hne, hall⟩
    have hnd := l.nodup_dedup
    rcases hd : l.dedup with _ | ⟨a, rest⟩
    · exact absurd ((List.dedup_eq_nil l).mp hd) hne
    · rcases rest with _ | ⟨b, rest2⟩
      · rfl
      · exfalso
        have haa : a ∈ l := List.mem_dedup.mp (by rw [hd]; exact List.mem_cons_self _ _)
        have hbb : b ∈ l := List.mem_dedup.mp
          (by rw [hd]; exact List.mem_cons_of_mem _ (List.mem_cons_self _ _))
        have hab : a = b := hall a haa b hbb
        rw [hd] at hnd
        exact (List.nodup_cons.mp hnd).1 (by rw [hab]; exact List.mem_cons_self _ _)

/-- Pairwise equality of mapped values, transported along `List.mem_map`. -/
lemma forall_pairs_map {α β : Type _} (f : α → β) (l : List α) :
    (∀ x ∈ l.map f, ∀ y ∈ l.map f, x = y) ↔ ∀ a ∈ l, ∀ b ∈ l, f a = f b := by
  constructor
  · intro h a ha b hb
    exact h _ (List.mem_map_of_mem f ha) _ (List.mem_map_of_mem f hb)
  · intro h x hx y hy
    obtain ⟨a, ha, rfl⟩ := List.mem_map.mp hx
    obtain ⟨b, hb, rfl⟩ := List.mem_map.mp hy
    exact h a ha b hb

/-- The HS risk when no code was collected. -/
lemma hsRisk_empty (docs : List DocInfo) (hm : hsMap docs = []) :
    hsRiskOf docs = "High" := by
  unfold hsRiskOf hsAnalysisOf
  simp [hm]

/-- The HS risk with a single unique code. -/
lemma hsRisk_low (docs : List DocInfo) (hm : hsMap docs ≠ [])
    (h1 : ((hsMap docs).map (fun e => e.hs)).dedup.length = 1) :
    hsRiskOf docs = "Low" := by
  unfold hsRiskOf hsAnalysisOf
  simp [List.isEmpty_iff, hm, h1]

/-- The HS risk with several unique codes in a single chapter. -/
lemma hsRisk_medium (docs : List DocInfo) (hm : hsMap docs ≠ [])
    (h1 : ((hsMap docs).map (fun e => e.hs)).dedup.length ≠ 1)
    (h2 : ((((hsMap docs).map (fun e => e.hs)).filter (fun h => 2 ≤ h.length)).map
        (fun h => pyTake 2 h)).dedup.length = 1) :
    hsRiskOf docs = "Medium" := by
  unfold hsRiskOf hsAnalysisOf
  simp [List.isEmpty_iff, hm, h1, h2]

/-- The HS risk with several unique codes across chapters. -/
lemma hsRisk_high (docs : List DocInfo) (hm : hsMap docs ≠ [])
    (h1 : ((hsMap docs).map (fun e => e.hs)).dedup.length ≠ 1)
    (h2 : ((((hsMap docs).map (fun e => e.hs)).filter (fun h => 2 ≤ h.length)).map
        (fun h => pyTake 2 h)).dedup.length ≠ 1) :
    hsRiskOf docs = "High" := by
  unfold hsRiskOf hsAnalysisOf
  simp [List.isEmpty_iff, hm, h1, h2]

/-- C5 (confirmed): over the tariff codes collected from every line item
(all of length ≥ 2, as the extractor only emits 6–8 digit codes), the HS
risk is Low iff exactly one unique code exists, Medium iff several unique
codes exist but all share the same two-character chapter prefix, and High
iff no code was found anywhere or several unique codes span differing
chapters; `["850130","850199"]` gives Medium, `["850130","271019"]` gives
High, and an empty collection gives High with the "No HS codes found"
summary. -/
theorem hs_consistency_trichotomy :
    (∀ docs : List DocInfo, (∀ e ∈ hsMap docs, 2 ≤ e.hs.length) →
        ((hsRiskOf docs = "Low"
            ↔ ((hsMap docs).map (fun e => e.hs)).dedup.length = 1)
         ∧ (hsRiskOf docs = "Medium"
            ↔ 2 ≤ ((hsMap docs).map (fun e => e.hs)).dedup.length
              ∧ ∀ c1 ∈ (hsMap docs).map (fun e => e.hs),
                ∀ c2 ∈ (hsMap docs).map (fun e => e.hs), pyTake 2 c1 = pyTake 2 c2)
         ∧ (hsRiskOf docs = "High"
            ↔ hsMap docs = []
              ∨ (2 ≤ ((hsMap docs).map (fun e => e.hs)).dedup.length
                ∧ ¬ ∀ c1 ∈ (hsMap docs).map (fun e => e.hs),
                    ∀ c2 ∈ (hsMap docs).map (fun e => e.hs), pyTake 2 c1 = pyTake 2 c2))))
    ∧ hsRiskOf docsHsMedium = "Medium"
    ∧ hsRiskOf docsHsHigh = "High"
    ∧ (hsAnalysisOf ([] : List DocInfo)).risk_level = "High"
    ∧ (hsAnalysisOf ([] : List DocInfo)).summary = "No HS codes found in any document." := by
  refine ⟨?_, by decide, by decide, by decide, by decide⟩
  intro docs hlen
  have hlen' : ∀ h ∈ (hsMap docs).map (fun e => e.hs), 2 ≤ h.length := by
    intro h hh
    obtain ⟨e, he, rfl⟩ := List.mem_map.mp hh
    exact hlen e he
  have hfilter : ((hsMap docs).map (fun e => e.hs)).filter (fun h => 2 ≤ h.length)
      = (hsMap docs).map (fun e => e.hs) :=
    List.filter_eq_self.mpr (fun a ha => by simp [hlen' a ha])
  by_cases hm : hsMap docs = []
  · have hrisk := hsRisk_empty docs hm
    rw [hrisk]
    refine ⟨?_, ?_, ?_⟩
    · exact iff_of_false (by decide) (by simp [hm])
    · exact iff_of_false (by decide) (by simp [hm])
    · exact iff_of_true rfl (Or.inl hm)
  · have hcne : (hsMap docs).map (fun e => e.hs) ≠ [] := by
      simp [List.map_eq_nil_iff, hm]
    have hpos : 1 ≤ ((hsMap docs).map (fun e => e.hs)).dedup.length := by
      rcases Nat.eq_zero_or_pos ((hsMap docs).map (fun e => e.hs)).dedup.length with h0 | hp
      · exfalso
        rw [List.length_eq_zero] at h0
        exact hcne ((List.dedup_eq_nil _).mp h0)
      · exact hp
    by_cases h1 : ((hsMap docs).map (fun e => e.hs)).dedup.length = 1
    · have hrisk := hsRisk_low docs hm h1
      rw [hrisk]
      refine ⟨iff_of_true rfl h1, ?_, ?_⟩
      · refine iff_of_false (by decide) ?_
        rintro ⟨h2le, _⟩
        omega
      · refine iff_of_false (by decide) ?_
        rintro (hnil | ⟨h2le, _⟩)
        · exact hm hnil
        · omega
    · have h2le : 2 ≤ ((hsMap docs).map (fun e => e.hs)).dedup.length := by omega
      by_cases h2 : (((hsMap docs).map (fun e => e.hs)).map (fun h => pyTake 2 h)).dedup.length = 1
      · have hallpairs := (dedup_length_eq_one _).mp h2
        have hcall := (forall_pairs_map (fun h => pyTake 2 h) _).mp hallpairs.2
        have hrisk := hsRisk_medium docs hm h1 (by rw [hfilter]; exact h2)
        rw [hrisk]
        refine ⟨iff_of_false (by decide) h1, iff_of_true rfl ⟨h2le, hcall⟩, ?_⟩
        refine iff_of_false (by decide) ?_
        rintro (hnil | ⟨_, hnotall⟩)
        · exact hm hnil
        · exact hnotall hcall
      · have hnotall : ¬ ∀ c1 ∈ (hsMap docs).map (fun e => e.hs),
            ∀ c2 ∈ (hsMap docs).map (fun e => e.hs), pyTake 2 c1 = pyTake 2 c2 := by
          intro hcall
          exact h2 ((dedup_length_eq_one _).mpr
            ⟨by simp [List.map_eq_nil_iff, hm],
             (forall_pairs_map (fun h => pyTake 2 h) _).mpr hcall⟩)
        have hrisk := hsRisk_high docs hm h1 (by rw [hfilter]; exact h2)
        rw [hrisk]
        refine ⟨iff_of_false (by decide) h1, ?_, iff_of_true rfl (Or.inr ⟨h2le, hnotall⟩)⟩
        refine iff_of_false (by decide) ?_
        rintro ⟨_, hcall⟩
        exact hnotall hcall

/-- Inversion for the per-document invoice-total check. -/
lemma docTotalAlert_inv (d : DocInfo) (a : Alert) (h : docTotalAlert d = some a) :
    ∃ s t, itemSum d.items = some s ∧ invTotal d = some t
      ∧ |s - t| > (0.02 : ℚ) * t ∧ a = mkTotalAlert d s t := by
  unfold docTotalAlert at h
  by_cases hi : d.items.isEmpty
  · rw [if_pos hi] at h
    cases h
  · rw [if_neg hi] at h
    cases hs : itemSum d.items with
    | none => simp [hs] at h
    | some s =>
      cases ht : invTotal d with
      | none => simp [hs, ht] at h
      | some t =>
        simp only [hs, ht] at h
        by_cases hc : |s - t| > (0.02 : ℚ) * t
        · rw [if_pos hc] at h
          exact ⟨s, t, rfl, rfl, hc, (Option.some.inj h).symm⟩
        · rw [if_neg hc] at h
          cases h

/-- Introduction for the per-document invoice-total check. -/
lemma docTotalAlert_some_of (d : DocInfo) (s t : ℚ) (hne : d.items ≠ [])
    (hs : itemSum d.items = some s) (ht : invTotal d = some t)
    (hc : |s - t| > (0.02 : ℚ) * t) :
    docTotalAlert d = some (mkTotalAlert d s t) := by
  unfold docTotalAlert
  rw [if_neg (by simp [List.isEmpty_iff, hne])]
  simp only [hs, ht]
  rw [if_pos hc]

/-- A parse failure silently skips the document's check. -/
lemma docTotalAlert_none_of_parse (d : DocInfo)
    (h : itemSum d.items = none ∨ invTotal d = none) :
    docTotalAlert d = none := by
  unfold docTotalAlert
  by_cases hi : d.items.isEmpty
  · rw [if_pos hi]
  · rw [if_neg hi]
    rcases h with h | h
    · cases hInv : invTotal d <;> simp [h, hInv]
    · cases hIt : itemSum d.items <;> simp [h, hIt]

/-- Every alert of the exporter-variation rule carries its rule name. -/
lemma mem_exporterFormatAlerts_rule (docs : List DocInfo) (a : Alert)
    (h : a ∈ exporterFormatAlerts docs) :
    a.rule = "Exporter name format variation" := by
  unfold exporterFormatAlerts at h
  dsimp only at h
  split at h
  · rw [List.mem_singleton.mp h]
  · cases h

/-- Every alert of the duplicate-invoice rule carries its rule name. -/
lemma mem_duplicateInvoiceAlerts_rule (docs : List DocInfo) (a : Alert)
    (h : a ∈ duplicateInvoiceAlerts docs) :
    a.rule = "Duplicate Invoice Number" := by
  unfold duplicateInvoiceAlerts at h
  dsimp only at h
  split at h
  · rw [List.mem_singleton.mp h]
  · cases h

/-- C4 (confirmed): for documents with distinct filenames, a document with
a non-empty item list whose item amounts and total parse receives a
High-severity "Invoice total mismatch" alert iff the absolute difference
between the item sum and the parsed total exceeds 2% of the total, and a
parse failure for one document removes only that document's check from
the invoice-total rule. -/
theorem invoice_total_threshold :
    (∀ (docs : List DocInfo) (d : DocInfo) (s t : ℚ),
        (docs.map (fun x => x.filename)).Nodup → d ∈ docs → d.items ≠ [] →
        itemSum d.items = some s → invTotal d = some t →
        ((∃ a ∈ checkInvoiceIntegrity docs,
            a.rule = "Invoice total mismatch" ∧ a.doc = some d.filename)
          ↔ |s - t| > (0.02 : ℚ) * t))
    ∧ (∀ (pre post : List DocInfo) (bad : DocInfo),
        itemSum bad.items = none ∨ invTotal bad = none →
        totalMismatchAlerts (pre ++ bad :: post) = totalMismatchAlerts (pre ++ post)) := by
  constructor
  · intro docs d s t hnd hd hne hs ht
    constructor
    · rintro ⟨a, ha, hrule, hdoc⟩
      rcases List.mem_append.mp ha with h12 | h3
      · rcases List.mem_append.mp h12 with h1 | h2
        · obtain ⟨d', hd', hsome⟩ := List.mem_filterMap.mp h1
          obtain ⟨s', t', hs', ht', hc', haeq⟩ := docTotalAlert_inv d' a hsome
          have hadoc : a.doc = some d'.filename := by rw [haeq]; rfl
          have hfn : d'.filename = d.filename := by
            rw [hadoc] at hdoc
            exact Option.some.inj hdoc
          have hdd : d' = d := List.inj_on_of_nodup_map hnd hd' hd hfn
          rw [hdd, hs] at hs'
          rw [hdd, ht] at ht'
          obtain rfl : s = s' := Option.some.inj hs'
          obtain rfl : t = t' := Option.some.inj ht'
          exact hc'
        · have hr := mem_exporterFormatAlerts_rule docs a h2
          rw [hr] at hrule
          exact absurd hrule (by decide)
      · have hr := mem_duplicateInvoiceAlerts_rule docs a h3
        rw [hr] at hrule
        exact absurd hrule (by decide)
    · intro hc
      refine ⟨mkTotalAlert d s t, ?_, rfl, rfl⟩
      exact List.mem_append_left _ (List.mem_append_left _
        (List.mem_filterMap.mpr ⟨d, hd, docTotalAlert_some_of d s t hne hs ht hc⟩))
  · intro pre post bad hbad
    unfold totalMismatchAlerts
    rw [List.filterMap_append, List.filterMap_append, List.filterMap_cons,
      docTotalAlert_none_of_parse bad hbad]

/-- Witness for `invoice_total_threshold`: items 40 and 60 against total
150 trigger the alert (50 > 3), while total 100 does not (0 ≤ 2). -/
theorem invoice_total_threshold_witness :
    (([docInv ("150")].map (fun x => x.filename)).Nodup
      ∧ docInv ("150") ∈ [docInv ("150")]
      ∧ (docInv ("150")).items ≠ []
      ∧ itemSum (docInv ("150")).items = some 100
      ∧ invTotal (docInv ("150")) = some 150
      ∧ ((∃ a ∈ checkInvoiceIntegrity [docInv ("150")],
            a.rule = "Invoice total mismatch" ∧ a.doc = some (docInv ("150")).filename)
          ↔ |(100 : ℚ) - 150| > (0.02 : ℚ) * 150))
    ∧ (itemSum (docInv ("100")).items = some 100
      ∧ invTotal (docInv ("100")) = some 100
      ∧ ((∃ a ∈ checkInvoiceIntegrity [docInv ("100")],
            a.rule = "Invoice total mismatch" ∧ a.doc = some (docInv ("100")).filename)
          ↔ |(100 : ℚ) - 100| > (0.02 : ℚ) * 100)) := by
  have hs150 : itemSum (docInv ("150")).items = some 100 := by
    have h : itemSum (docInv ("150")).items
        = some (((40 : ℕ) : ℚ) + (((60 : ℕ) : ℚ) + 0)) := rfl
    rw [h]
    norm_num
  have ht150 : invTotal (docInv ("150")) = some 150 := by
    have h : invTotal (docInv ("150")) = some (((150 : ℕ) : ℚ)) := rfl
    rw [h]
    norm_num
  have hs100 : itemSum (docInv ("100")).items = some 100 := by
    have h : itemSum (docInv ("100")).items
        = some (((40 : ℕ) : ℚ) + (((60 : ℕ) : ℚ) + 0)) := rfl
    rw [h]
    norm_num
  have ht100 : invTotal (docInv ("100")) = some 100 := by
    have h : invTotal (docInv ("100")) = some (((100 : ℕ) : ℚ)) := rfl
    rw [h]
    norm_num
  refine ⟨⟨by decide, by decide, by decide, hs150, ht150, ?_⟩, hs100, ht100, ?_⟩
  · exact invoice_total_threshold.1 [docInv ("150")] (docInv ("150")) 100 150
      (by decide) (by decide) (by decide) hs150 ht150
  · exact invoice_total_threshold.1 [docInv ("100")] (docInv ("100")) 100 100
      (by decide) (by decide) (by decide) hs100 ht100

/-- The exporter-variation rule never emits a "Value Spike" alert. -/
lemma exporterVariation_no_spike (docs : List DocInfo) :
    (exporterVariationAlerts docs).filter (fun a => a.ptype == "Value Spike") = [] := by
  unfold exporterVariationAlerts
  dsimp only
  split
  · rfl
  · rfl

/-- The transport-variation rule never emits a "Value Spike" alert. -/
lemma transportVariation_no_spike (docs : List DocInfo) :
    (transportVariationAlerts docs).filter (fun a => a.ptype == "Value Spike") = [] := by
  unfold transportVariationAlerts
  dsimp only
  split
  · rfl
  · rfl

/-- No value-spike alert is produced when no amount passes the z-score
trigger. -/
lemma valueSpikeAlerts_eq_nil (docs : List DocInfo)
    (h3 : 3 ≤ (parsedAmounts docs).length)
    (hcond : ∀ a ∈ parsedAmounts docs,
      ¬(sampleVar (parsedAmounts docs) ≠ 0
        ∧ (a - listMean (parsedAmounts docs)) ^ 2 > 4 * sampleVar (parsedAmounts docs))) :
    valueSpikeAlerts docs = [] := by
  unfold valueSpikeAlerts
  dsimp only
  rw [if_pos h3]
  apply List.filterMap_eq_nil_iff.mpr
  intro p hp
  have hmem : p.2 ∈ parsedAmounts docs := by
    have hsnd := List.enum_map_snd (parsedAmounts docs)
    rw [← hsnd]
    exact List.mem_map_of_mem Prod.snd hp
  rw [if_neg (hcond p.2 hmem)]

/-- C2 (corrected): for any comparison run whose four parsed amounts are
100, 102, 98 and 5000, the anomaly detector emits no Value Spike alert at
all: with four samples the sample standard deviation bounds every z-score
by 1.5, so the 5000 outlier scores z < 1.5, below the 2.0 trigger (and
far below the High threshold 3). -/
theorem value_spike_no_alert :
    (∀ docs : List DocInfo, parsedAmounts docs = [100, 102, 98, 5000] →
        (detectPatterns docs).filter (fun a => a.ptype == "Value Spike") = [])
    ∧ ((5000 - listMean [(100 : ℚ), 102, 98, 5000]) ^ 2
        < 4 * sampleVar [(100 : ℚ), 102, 98, 5000])
    ∧ ((5000 - listMean [(100 : ℚ), 102, 98, 5000]) ^ 2
        < (9 / 4) * sampleVar [(100 : ℚ), 102, 98, 5000]) := by
  refine ⟨?_, ?_, ?_⟩
  · intro docs h
    unfold detectPatterns
    rw [List.filter_append, List.filter_append, exporterVariation_no_spike,
      transportVariation_no_spike]
    suffices hs : valueSpikeAlerts docs = [] by rw [hs]; rfl
    apply valueSpikeAlerts_eq_nil docs (by rw [h]; decide)
    intro a ha
    rw [h] at ha ⊢
    fin_cases ha <;>
      · norm_num [listMean, sampleVar, List.sum_cons, List.sum_nil]
  · norm_num [listMean, sampleVar, List.sum_cons, List.sum_nil]
  · norm_num [listMean, sampleVar, List.sum_cons, List.sum_nil]

/-- Witness for `value_spike_no_alert` on the four concrete documents. -/
theorem value_spike_no_alert_witness :
    parsedAmounts docsC2 = [100, 102, 98, 5000]
    ∧ (detectPatterns docsC2).filter (fun a => a.ptype == "Value Spike") = [] := by
  have hp : parsedAmounts docsC2 = [100, 102, 98, 5000] := rfl
  exact ⟨hp, value_spike_no_alert.1 docsC2 hp⟩

/-- C2 counterexample: the concrete four-document run with amounts
100, 102, 98 and 5000 produces an empty alert list — in particular no
High-severity Value Spike for the 5000 document. -/
theorem value_spike_counterexample :
    parsedAmounts docsC2 = [100, 102, 98, 5000]
    ∧ detectPatterns docsC2 = [] := by
  have hp : parsedAmounts docsC2 = [100, 102, 98, 5000] := rfl
  refine ⟨hp, ?_⟩
  have h1 : valueSpikeAlerts docsC2 = [] := by
    apply valueSpikeAlerts_eq_nil docsC2 (by rw [hp]; decide)
    intro a ha
    rw [hp] at ha ⊢
    fin_cases ha <;>
      · norm_num [listMean, sampleVar, List.sum_cons, List.sum_nil]
  have h2 : exporterVariationAlerts docsC2 = [] := rfl
  have h3 : transportVariationAlerts docsC2 = [] := rfl
  unfold detectPatterns
  rw [h1, h2, h3]
  rfl

/-- The resolver loop returns the first successful capture, trying per
pattern the same-line form then the next-line form, in table order. -/
lemma resolveLoop_eq (ps : List RE) (text : String) :
    resolveLoop ps text
      = ((ps.flatMap (fun p => [sameLineCapture p text, nextLineCapture p text])).findSome?
          id).map pyStrip := by
  induction ps with
  | nil => rfl
  | cons p rest ih =>
      rw [List.flatMap_cons]
      unfold resolveLoop
      cases h1 : sameLineCapture p text with
      | some v => simp [List.findSome?_cons, h1]
      | none =>
        cases h2 : nextLineCapture p text with
        | some v => simp [List.findSome?_cons, h1, h2]
        | none => simp [List.findSome?_cons, h1, h2, ih]

/-- C8 (corrected): for non-empty text, `find_field_by_synonyms` returns
the first successful capture over the synonym patterns in table order —
same-line attempt before next-line attempt, advancing only when both fail
— trimmed; but the trimmed capture may be empty, so a non-null return can
be the empty string (the same-line template's greedy `\s*` backtracks one
step and captures a single whitespace character when only whitespace
follows the separator). -/
theorem field_resolver_first_match :
    (∀ text key : String, text ≠ "" →
        findFieldBySynonyms text key
          = (((fieldSynonyms key).flatMap
                (fun p => [sameLineCapture p text, nextLineCapture p text])).findSome?
              id).map pyStrip)
    ∧ findFieldBySynonyms ("currency:   ") ("currency") = some ("") := by
  constructor
  · intro text key h
    unfold findFieldBySynonyms
    rw [if_neg h]
    exact resolveLoop_eq _ _
  · decide

/-- Witness for `field_resolver_first_match` on a concrete text/key. -/
theorem field_resolver_first_match_witness :
    (("currency: USD" : String) ≠ "")
    ∧ findFieldBySynonyms ("currency: USD") ("currency")
        = (((fieldSynonyms ("currency")).flatMap
              (fun p => [sameLineCapture p ("currency: USD"),
                nextLineCapture p ("currency: USD")])).findSome? id).map pyStrip :=
  ⟨by decide, field_resolver_first_match.1 ("currency: USD") ("currency") (by decide)⟩

/-- C8 counterexample: on the text `"currency:   "` (only whitespace after
the colon) the resolver returns a non-null result that is the empty
string, refuting "a non-null return value is never the empty string". -/
theorem field_resolver_counterexample :
    findFieldBySynonyms ("currency:   ") ("currency") = some ("")
    ∧ (some ("") : Option String) ≠ none :=
  ⟨by decide, by decide⟩

/-- Witness for `hs_consistency_trichotomy` on the shared-chapter pair. -/
theorem hs_consistency_trichotomy_witness :
    (∀ e ∈ hsMap docsHsMedium, 2 ≤ e.hs.length)
    ∧ (hsRiskOf docsHsMedium = "Medium"
        ↔ 2 ≤ ((hsMap docsHsMedium).map (fun e => e.hs)).dedup.length
          ∧ ∀ c1 ∈ (hsMap docsHsMedium).map (fun e => e.hs),
            ∀ c2 ∈ (hsMap docsHsMedium).map (fun e => e.hs), pyTake 2 c1 = pyTake 2 c2) :=
  ⟨by decide, (hs_consistency_trichotomy.1 docsHsMedium (by decide)).2.1⟩

end DocIntel
